import Mathlib

set_option maxRecDepth 400000

/-!
Shallow embedding of nbquery.c, an implementation of the RFC 1001/1002 NetBIOS
Node Status query.  The wire codec of the tool is modelled over byte lists:

* a received or transmitted datagram is a `buffer_t`, a byte list `data`
  (the backing array, 1024 bytes in the program) together with the declared
  payload `length`;
* the byte-order codec `dec8be`/`dec16be`/`dec32be` reads big-endian integers
  at an absolute offset, with default 0 outside the list, exactly as the
  program reads from its zero-initialised backing array;
* `nbstat_decode_response` follows the source line by line: the 576-byte
  ceiling, header and flag decoding (including the bit-field truncation the
  source performs when it assigns the whole flags word to one-bit fields),
  the resource-record type check, the single upfront length cross-check,
  the entry loop with its allocation-failure path, the 46-byte statistics
  block, and the final cursor consistency check.  Reads that would fall
  outside the backing array yield the distinguished result `oob`; heap
  allocation is modelled by an oracle `alloc : Nat → Bool` giving the
  outcome of the i-th `malloc` in the entry loop, and the identifiers of
  the nodes released by `node_name_free` are reported on the failure path;
* `nbstat_encode_request`, `nbstat_query` (over an environment of transport
  outcomes) and the error-string table `error_list`/`nbstat_error` are
  modelled likewise.
-/

/- Error codes from the source. -/

def NBSTAT_EOK : Nat := 0x000

def NBSTAT_ENOMEM : Nat := 0x101

def NBSTAT_EINVAL : Nat := 0x102

def NBSTAT_EWSAFAIL : Nat := 0x103

def NBSTAT_ESOCKET : Nat := 0x104

/- Generic protocol error -/
def NBSTAT_EPROTO : Nat := 0x105

def NBSTAT_ETRFLAG : Nat := 0x106

def NBSTAT_ETIMEOUT : Nat := 0x107

def NBSTAT_EDEBUG : Nat := 0x200

def RR_TYPE_NBSTAT : Nat := 0x0021

def QTYPE_NBSTAT : Nat := 0x0021

def QCLASS_IN : Nat := 0x0001

/-- Byte of the backing array at absolute offset `i`; the receive array of
the program is 1024 bytes and zeroed beforehand, hence the default 0. -/
def getByte (d : List Nat) (i : Nat) : Nat := d.getD i 0

/-- dec8be: `return ptr[0];` -/
def dec8be (d : List Nat) (i : Nat) : Nat := getByte d i

/-- dec16be: `return ((ptr[0] << 8) | ptr[1]);` -/
def dec16be (d : List Nat) (i : Nat) : Nat :=
  (getByte d i) <<< 8 ||| getByte d (i + 1)

/-- dec32be: `(((uint32_t)ptr[0] << 24) | (ptr[1] << 16) | (ptr[2] << 8) | ptr[3])` -/
def dec32be (d : List Nat) (i : Nat) : Nat :=
  (getByte d i) <<< 24 ||| (getByte d (i + 1)) <<< 16 |||
    (getByte d (i + 2)) <<< 8 ||| getByte d (i + 3)

/-- enc16be: writes `[(x >> 8) & 0xff, x & 0xff]`. -/
def enc16be (x : Nat) : List Nat := [(x >>> 8) &&& 0xff, x &&& 0xff]

/-- Packet header (struct nbstat_packet_header): transaction id, the eight
sub-fields of the 16-bit flags word, and the four counts.  The C fields are
bit-fields (`r:1`, `opcode:4`, `aa:1`, ..., `rcode:4`); an assignment to a
bit-field of width w truncates the stored value to its low w bits. -/
structure nbstat_packet_header where
  name_trn_id : Nat
  r : Nat
  opcode : Nat
  aa : Nat
  tc : Nat
  rd : Nat
  ra : Nat
  unused1 : Nat
  unused2 : Nat
  b : Nat
  rcode : Nat
  qdcount : Nat
  ancount : Nat
  nscount : Nat
  arcount : Nat
deriving Repr, DecidableEq

/-- Question section (struct nbstat_question_section); `q_name` is a 34-byte
array (`uint8_t q_name[34]`), modelled as a byte list. -/
structure nbstat_question_section where
  q_name : List Nat
  q_type : Nat
  q_class : Nat
deriving Repr, DecidableEq

/-- Resource record (struct nbstat_resource_record).  The 34-byte `rr_name`
field is skipped on decode and never stored, so it is omitted here. -/
structure nbstat_resource_record where
  rr_type : Nat
  rr_class : Nat
  ttl : Nat
  rdlength : Nat
deriving Repr, DecidableEq

/-- Node entry (struct nbstat_node_name), 18 bytes on the wire.  The `next`
pointer of the C struct is represented by list structure. -/
structure nbstat_node_name where
  nbf_name : List Nat
  suffix : Nat
  g : Nat
  ont : Nat
  drg : Nat
  cnf : Nat
  act : Nat
  prm : Nat
  reserved : Nat
deriving Repr, DecidableEq

/-- Statistics field of the Node Status Response (struct nbstat_statistics),
46 bytes on the wire. -/
structure nbstat_statistics where
  unit_id : List Nat
  jumpers : Nat
  test_result : Nat
  version_number : Nat
  period_of_statistics : Nat
  number_of_crcs : Nat
  number_alignment_errors : Nat
  number_of_collisions : Nat
  number_send_aborts : Nat
  number_good_sends : Nat
  number_good_receives : Nat
  number_retransmits : Nat
  number_no_resource_conditions : Nat
  number_free_command_blocks : Nat
  total_number_command_blocks : Nat
  max_total_number_command_blocks : Nat
  number_pending_sessions : Nat
  max_number_pending_sessions : Nat
  max_total_sessions_possible : Nat
  session_data_packet_size : Nat
deriving Repr, DecidableEq

/-- Node Status Request (struct nbstat_query of the source; suffixed `_s`
because the Lean namespace is shared with the function `nbstat_query`). -/
structure nbstat_query_s where
  hdr : nbstat_packet_header
  question : nbstat_question_section
deriving Repr, DecidableEq

/-- Node Status Response (struct nbstat_response). -/
structure nbstat_response where
  hdr : nbstat_packet_header
  rr : nbstat_resource_record
  num_names : Nat
  node : List nbstat_node_name
  stat : nbstat_statistics
deriving Repr, DecidableEq

/-- Buffer object (struct buffer): backing byte array plus declared payload
length.  `size` of the C struct is `data.length` here. -/
structure buffer_t where
  data : List Nat
  length : Nat
deriving Repr, DecidableEq

/-- nbstat_t object: the query result.  `sin` (the sender socket address) is
outside the wire codec and omitted. -/
structure nbstat_t where
  hwaddr : List Nat
  count : Nat
  node : List nbstat_node_name
deriving Repr, DecidableEq

/-- Result of `nbstat_decode_response`: success with the decoded response,
an error code, or a read outside the backing array (undefined behaviour in
the C program; never reached with the 1024-byte buffer of the program). -/
inductive DecodeResult where
  | ok (rep : nbstat_response)
  | err (code : Nat)
  | oob
deriving Repr, DecidableEq

def DecodeResult.isOk : DecodeResult → Bool
  | DecodeResult.ok _ => true
  | _ => false

def DecodeResult.isOob : DecodeResult → Bool
  | DecodeResult.oob => true
  | _ => false

/-- True exactly when the decoder reported the internal debug error. -/
def DecodeResult.isEdebugErr : DecodeResult → Bool
  | DecodeResult.err c => c == NBSTAT_EDEBUG
  | _ => false

/-- Header of a successful decode, if any. -/
def DecodeResult.header : DecodeResult → Option nbstat_packet_header
  | DecodeResult.ok rep => some rep.hdr
  | _ => none

/-- Outcome of the entry loop (lines 487-528): the decoded entries together
with the final cursor, an allocation failure reporting the identifiers freed
by `node_name_free`, or an out-of-bounds read. -/
inductive EntryResult where
  | ok (node : List nbstat_node_name) (pos : Nat)
  | enomem (freed : List Nat)
  | oob
deriving Repr, DecidableEq

/-- node_name_free: walks the chain and frees every node in it.  The chain is
a list of (allocation id, entry) pairs; the function returns the ids freed. -/
def node_name_free (node : List (Nat × nbstat_node_name)) : List Nat :=
  node.map Prod.fst

/-- One 18-byte name-table entry at cursor `pos` (lines 504-526): 15 name
bytes, the suffix byte, and the 16-bit flag word split by shift and mask. -/
def decodeEntry (d : List Nat) (pos : Nat) : nbstat_node_name :=
  { nbf_name := (d.drop pos).take 15
    suffix := dec8be d (pos + 15)
    g := (dec16be d (pos + 16) >>> 15) &&& 0x1
    ont := (dec16be d (pos + 16) >>> 13) &&& 0x3
    drg := (dec16be d (pos + 16) >>> 12) &&& 0x1
    cnf := (dec16be d (pos + 16) >>> 11) &&& 0x1
    act := (dec16be d (pos + 16) >>> 10) &&& 0x1
    prm := (dec16be d (pos + 16) >>> 9) &&& 0x1
    reserved := dec16be d (pos + 16) &&& 0x1ff }

/-- The entry loop (lines 487-528).  Arguments after the remaining count:
the chain built so far (with allocation ids), the cursor, and the iteration
index `i` (also the id of the node the i-th `malloc` would return).  A failed
allocation frees the chain via `node_name_free` and aborts with ENOMEM. -/
def entryLoop (alloc : Nat → Bool) (d : List Nat) :
    Nat → List (Nat × nbstat_node_name) → Nat → Nat → EntryResult
  | 0, node, pos, _ => EntryResult.ok (node.map Prod.snd) pos
  | r + 1, node, pos, i =>
    if alloc i then
      if d.length < pos + 18 then EntryResult.oob
      else entryLoop alloc d r (node ++ [(i, decodeEntry d pos)]) (pos + 18) (i + 1)
    else EntryResult.enomem (node_name_free node)

/-- The fixed 46-byte statistics block at cursor `pos` (lines 530-573). -/
def decodeStatistics (d : List Nat) (pos : Nat) : nbstat_statistics :=
  { unit_id := (d.drop pos).take 6
    jumpers := dec8be d (pos + 6)
    test_result := dec8be d (pos + 7)
    version_number := dec16be d (pos + 8)
    period_of_statistics := dec16be d (pos + 10)
    number_of_crcs := dec16be d (pos + 12)
    number_alignment_errors := dec16be d (pos + 14)
    number_of_collisions := dec16be d (pos + 16)
    number_send_aborts := dec16be d (pos + 18)
    number_good_sends := dec32be d (pos + 20)
    number_good_receives := dec32be d (pos + 24)
    number_retransmits := dec16be d (pos + 28)
    number_no_resource_conditions := dec16be d (pos + 30)
    number_free_command_blocks := dec16be d (pos + 32)
    total_number_command_blocks := dec16be d (pos + 34)
    max_total_number_command_blocks := dec16be d (pos + 36)
    number_pending_sessions := dec16be d (pos + 38)
    max_number_pending_sessions := dec16be d (pos + 40)
    max_total_sessions_possible := dec16be d (pos + 42)
    session_data_packet_size := dec16be d (pos + 44) }

/-- nbstat_decode_response (lines 416-578).  Offsets follow the cursor of
the source: header fields at 0-11, the skipped 34-byte rr_name, rr_type at 46,
rr_class at 48, ttl at 50, rdlength at 54, the count byte at 56, the entries
from 57 on, then the 46-byte statistics block.  The source returns EPROTO at
the 576-byte ceiling, at a resource-record type other than 0x0021, and at
the single upfront length cross-check `57 + 18*num_names + 46 == length`;
EDEBUG at the final cursor consistency check.  Reads outside the backing
array are reported as `oob`; the in-bounds conditions are grouped at the
two early-return boundaries of the source (all reads up to the type check need
offsets below 48, the remaining fixed-header reads need offsets below 57). -/
def nbstat_decode_response (alloc : Nat → Bool) (buffer : buffer_t) : DecodeResult :=
  if 576 < buffer.length then DecodeResult.err NBSTAT_EPROTO
  else if buffer.data.length < 48 then DecodeResult.oob
  else if dec16be buffer.data 46 ≠ RR_TYPE_NBSTAT then DecodeResult.err NBSTAT_EPROTO
  else if buffer.data.length < 57 then DecodeResult.oob
  else if 57 + 18 * dec8be buffer.data 56 + 46 ≠ buffer.length then
    DecodeResult.err NBSTAT_EPROTO
  else
    match entryLoop alloc buffer.data (dec8be buffer.data 56) [] 57 0 with
    | EntryResult.oob => DecodeResult.oob
    | EntryResult.enomem _ => DecodeResult.err NBSTAT_ENOMEM
    | EntryResult.ok node pos =>
      if buffer.data.length < pos + 46 then DecodeResult.oob
      else if pos + 46 ≠ buffer.length then DecodeResult.err NBSTAT_EDEBUG
      else
        DecodeResult.ok
          { hdr :=
              { name_trn_id := dec16be buffer.data 0
                r := (dec16be buffer.data 2 >>> 15) &&& 0x1
                opcode := (dec16be buffer.data 2 >>> 11) &&& 0xf
                -- lines 439-446: the whole flags word is assigned to each
                -- one-bit NM-flag bit-field and to the 4-bit rcode field,
                -- so each stores only the low bits of the word
                aa := dec16be buffer.data 2 &&& 0x1
                tc := dec16be buffer.data 2 &&& 0x1
                rd := dec16be buffer.data 2 &&& 0x1
                ra := dec16be buffer.data 2 &&& 0x1
                unused1 := dec16be buffer.data 2 &&& 0x1
                unused2 := dec16be buffer.data 2 &&& 0x1
                b := dec16be buffer.data 2 &&& 0x1
                rcode := dec16be buffer.data 2 &&& 0xf
                qdcount := dec16be buffer.data 4
                ancount := dec16be buffer.data 6
                nscount := dec16be buffer.data 8
                arcount := dec16be buffer.data 10 }
            rr :=
              { rr_type := dec16be buffer.data 46
                rr_class := dec16be buffer.data 48
                ttl := dec32be buffer.data 50
                rdlength := dec16be buffer.data 54 }
            num_names := dec8be buffer.data 56
            node
            stat := decodeStatistics buffer.data pos }

/-- Flag-word assembly of nbstat_encode_request (lines 358-371). -/
def nbstat_request_flags (h : nbstat_packet_header) : Nat :=
  ((h.r <<< 15) &&& 0x8000) ||| ((h.opcode <<< 11) &&& 0x7800) |||
    ((h.aa <<< 10) &&& 0x0400) ||| ((h.tc <<< 9) &&& 0x0200) |||
    ((h.rd <<< 8) &&& 0x0100) ||| ((h.ra <<< 7) &&& 0x0080) |||
    ((h.unused1 <<< 6) &&& 0x0040) ||| ((h.unused2 <<< 5) &&& 0x0020) |||
    ((h.b <<< 4) &&& 0x0010) ||| (h.rcode &&& 0x000f)

/-- The byte sequence nbstat_encode_request writes (lines 354-391):
transaction id, flags, the four counts, the 34-byte question name, question
type and class, in that order with no padding. -/
def nbstat_request_bytes (q : nbstat_query_s) : List Nat :=
  enc16be q.hdr.name_trn_id ++ enc16be (nbstat_request_flags q.hdr) ++
    enc16be q.hdr.qdcount ++ enc16be q.hdr.ancount ++
    enc16be q.hdr.nscount ++ enc16be q.hdr.arcount ++
    q.question.q_name ++ enc16be q.question.q_type ++ enc16be q.question.q_class

/-- nbstat_encode_request (lines 344-398).  Null pointers are `none`; the
function returns its error code together with the buffer as left after the
call (the encoded bytes overwrite the front of the backing array and the
buffer length is set to the number of bytes written). -/
def nbstat_encode_request (buffer : Option buffer_t) (query : Option nbstat_query_s) :
    Nat × Option buffer_t :=
  match buffer, query with
  | none, _ => (NBSTAT_EINVAL, buffer)
  | some _, none => (NBSTAT_EINVAL, buffer)
  | some buf, some q =>
    (NBSTAT_EOK,
      some { data := nbstat_request_bytes q ++ buf.data.drop (nbstat_request_bytes q).length
             length := (nbstat_request_bytes q).length })

/-- Timeout normalization of nbstat_query (lines 680-681):
`if (timeout > 10000 || timeout <= 0) timeout = 3000;` -/
def normalize_timeout (timeout : Int) : Int :=
  if 10000 < timeout ∨ timeout ≤ 0 then 3000 else timeout

/-- Environment of a single nbstat_query run: outcomes of the transport and
allocation calls the function makes, in program order.  `send_ok` stands for
`result != SOCKET_ERROR && result == buffer.length`; `select_result` is the
return value of select (negative on SOCKET_ERROR, 0 on expiry); `recv_ok`
for `recvfrom` not failing; `recv_buffer` the received datagram;
`alloc` the oracle of the entry-loop allocations; `nbstat_alloc_ok` the
outcome of the final `malloc` of the result object. -/
structure QueryEnv where
  winsock_ok : Bool
  socket_ok : Bool
  send_ok : Bool
  select_result : Int
  recv_ok : Bool
  recv_buffer : buffer_t
  alloc : Nat → Bool
  nbstat_alloc_ok : Bool

/-- nbstat_query (lines 619-722): error propagation and construction of the
result object.  Returns the error code and the out-parameter `*nbstat`
(`none` when the function never stores a result object there; the C assigns
`*nbstat` the null result of the failed `malloc` on its ENOMEM path, which
is likewise `none`).  A decoder `oob` stands for reads the program cannot
make (its receive buffer is 1024 bytes and the declared length is at most
that), and is mapped to the debug error with no result. -/
def nbstat_query (env : QueryEnv) : Nat × Option nbstat_t :=
  if env.winsock_ok = false then (NBSTAT_EWSAFAIL, none)
  else if env.socket_ok = false then (NBSTAT_ESOCKET, none)
  else if env.send_ok = false then (NBSTAT_EDEBUG, none)
  else if env.select_result < 0 then (NBSTAT_EDEBUG, none)
  else if env.select_result = 0 then (NBSTAT_ETIMEOUT, none)
  else if env.recv_ok = false then (NBSTAT_EDEBUG, none)
  else
    match nbstat_decode_response env.alloc env.recv_buffer with
    | DecodeResult.err c => (c, none)
    | DecodeResult.oob => (NBSTAT_EDEBUG, none)
    | DecodeResult.ok rep =>
      if env.nbstat_alloc_ok = false then (NBSTAT_ENOMEM, none)
      else
        (NBSTAT_EOK,
          some { hwaddr := rep.stat.unit_id
                 count := rep.node.length
                 node := rep.node })

/-- Error-message table (lines 724-737).  The `{0xffffffff, NULL}` sentinel
terminates the C array and is represented by the end of the list; note the
table has no entry for NBSTAT_EPROTO. -/
def error_list : List (Nat × String) :=
  [(NBSTAT_EOK, "operation completed successfully"),
   (NBSTAT_ENOMEM, "memory allocation failure"),
   (NBSTAT_EINVAL, "an invalid argument was passed to a library function"),
   (NBSTAT_EWSAFAIL, "could not initialize the sockets layer"),
   (NBSTAT_ESOCKET, "the system could not allocate a socket descriptor"),
   (NBSTAT_ETRFLAG, "truncation flag was set in response"),
   (NBSTAT_ETIMEOUT, "request expired"),
   (NBSTAT_EDEBUG, "debugging error")]

/-- nbstat_error (lines 740-756): first matching entry, else "Unknown error". -/
def nbstat_error (x : Nat) : String :=
  match error_list.find? (fun e => e.fst == x) with
  | some e => e.snd
  | none => "Unknown error"

/- Concrete test datagrams.  `mkResponseData hi lo n body` is a backing
array holding a response whose flags bytes are `hi lo`, whose resource
record has type 0x0021 and zero class/ttl/rdlength, whose count byte is `n`,
followed by `body`. -/

def mkResponseData (hi lo n : Nat) (body : List Nat) : List Nat :=
  [0, 0, hi, lo] ++ List.replicate 42 0 ++ [0x00, 0x21] ++
    List.replicate 8 0 ++ [n] ++ body

/-- A minimal valid response: zero flags, zero entries, 46-byte statistics
block; total length 103. -/
def bufZeroFlags : buffer_t :=
  { data := mkResponseData 0 0 0 (List.replicate 46 0), length := 103 }

/-- A valid response whose flags word is 0x07F0: wire bits 4-10 (the seven
NM-flag positions) all set, all other bits clear. -/
def bufNmFlags : buffer_t :=
  { data := mkResponseData 0x07 0xf0 0 (List.replicate 46 0), length := 103 }

/-- A response of the exact shape the length formula prescribes for
N = 27 entries: length 57 + 18*27 + 46 = 589, valid type and count byte. -/
def bufN27 : buffer_t :=
  { data := mkResponseData 0 0 27 (List.replicate (18 * 27 + 46) 0), length := 589 }

/-- A valid response frame with N = 2 entries (length 139), used to exercise
the allocation-failure path. -/
def bufN2 : buffer_t :=
  { data := mkResponseData 0 0 2 (List.replicate (18 * 2 + 46) 0), length := 139 }

/-- An otherwise well-formed 103-byte response whose resource-record type is
0x0020 instead of 0x0021. -/
def bufBadType : buffer_t :=
  { data := [0, 0, 0, 0] ++ List.replicate 42 0 ++ [0x00, 0x20] ++
      List.replicate 8 0 ++ [0] ++ List.replicate 46 0
    length := 103 }

/-- A buffer whose declared length is off by one (104 instead of 103) for
its count byte 0. -/
def bufBadLen : buffer_t :=
  { data := mkResponseData 0 0 0 (List.replicate 47 0), length := 104 }

/-- A concrete encode-side buffer (zeroed 60-byte backing array). -/
def encBuf : buffer_t := { data := List.replicate 60 0, length := 0 }

/-- A concrete query with a 34-byte question name. -/
def encQuery : nbstat_query_s :=
  { hdr :=
      { name_trn_id := 0x1234, r := 0, opcode := 0, aa := 0, tc := 0, rd := 0
        ra := 0, unused1 := 0, unused2 := 0, b := 0, rcode := 0
        qdcount := 1, ancount := 0, nscount := 0, arcount := 0 }
    question := { q_name := List.replicate 34 0x41, q_type := QTYPE_NBSTAT
                  q_class := QCLASS_IN } }

/-- A query environment that fails at winsock initialisation. -/
def envWsaFail : QueryEnv :=
  { winsock_ok := false, socket_ok := true, send_ok := true, select_result := 1
    recv_ok := true, recv_buffer := bufZeroFlags, alloc := fun _ => true
    nbstat_alloc_ok := true }

def EntryResult.isOob : EntryResult → Bool
  | EntryResult.oob => true
  | _ => false

theorem entryLoop_ok_pos (alloc : Nat → Bool) (d : List Nat) :
    ∀ (r : Nat) (node : List (Nat × nbstat_node_name)) (pos i : Nat)
      (l : List nbstat_node_name) (p : Nat),
      entryLoop alloc d r node pos i = EntryResult.ok l p → p = pos + 18 * r := by
  intro r
  induction r with
  | zero =>
    intro node pos i l p h
    simp only [entryLoop, EntryResult.ok.injEq] at h
    omega
  | succ r ih =>
    intro node pos i l p h
    simp only [entryLoop] at h
    by_cases ha : alloc i
    · rw [if_pos ha] at h
      by_cases hb : d.length < pos + 18
      · rw [if_pos hb] at h
        exact absurd h (by simp)
      · rw [if_neg hb] at h
        have := ih _ _ _ _ _ h
        omega
    · rw [if_neg ha] at h
      exact absurd h (by simp)

theorem entryLoop_ok_of_alloc (alloc : Nat → Bool) (d : List Nat)
    (hall : ∀ j, alloc j = true) :
    ∀ (r : Nat) (node : List (Nat × nbstat_node_name)) (pos i : Nat),
      pos + 18 * r ≤ d.length →
      ∃ l, entryLoop alloc d r node pos i = EntryResult.ok l (pos + 18 * r) := by
  intro r
  induction r with
  | zero =>
    intro node pos i _
    exact ⟨node.map Prod.snd, by simp [entryLoop]⟩
  | succ r ih =>
    intro node pos i hb
    obtain ⟨l, hl⟩ := ih (node ++ [(i, decodeEntry d pos)]) (pos + 18) (i + 1) (by omega)
    refine ⟨l, ?_⟩
    have hstep : pos + 18 * (r + 1) = pos + 18 + 18 * r := by ring
    rw [hstep]
    simp only [entryLoop, hall i, if_true, if_neg (by omega : ¬ d.length < pos + 18)]
    exact hl

theorem entryLoop_not_oob (alloc : Nat → Bool) (d : List Nat) :
    ∀ (r : Nat) (node : List (Nat × nbstat_node_name)) (pos i : Nat),
      pos + 18 * r ≤ d.length →
      (entryLoop alloc d r node pos i).isOob = false := by
  intro r
  induction r with
  | zero => intro node pos i _; rfl
  | succ r ih =>
    intro node pos i hb
    simp only [entryLoop]
    by_cases ha : alloc i
    · rw [if_pos ha, if_neg (by omega : ¬ d.length < pos + 18)]
      exact ih _ _ _ (by omega)
    · rw [if_neg ha]
      rfl

theorem entryLoop_enomem (alloc : Nat → Bool) (d : List Nat) :
    ∀ (m r : Nat) (node : List (Nat × nbstat_node_name)) (pos i : Nat),
      m < r → (∀ j, j < m → alloc (i + j) = true) → alloc (i + m) = false →
      pos + 18 * m ≤ d.length →
      entryLoop alloc d r node pos i =
        EntryResult.enomem (node.map Prod.fst ++ List.range' i m) := by
  intro m
  induction m with
  | zero =>
    intro r node pos i hm h1 h2 hb
    obtain ⟨r', rfl⟩ : ∃ r', r = r' + 1 := ⟨r - 1, by omega⟩
    have ha : alloc i = false := by simpa using h2
    simp [entryLoop, ha, node_name_free]
  | succ m ih =>
    intro r node pos i hm h1 h2 hb
    obtain ⟨r', rfl⟩ : ∃ r', r = r' + 1 := ⟨r - 1, by omega⟩
    have ha : alloc i = true := by simpa using h1 0 (by omega)
    simp only [entryLoop, ha, if_true, if_neg (by omega : ¬ d.length < pos + 18)]
    rw [ih r' (node ++ [(i, decodeEntry d pos)]) (pos + 18) (i + 1) (by omega)
      (fun j hj => by
        have := h1 (j + 1) (by omega)
        simpa [Nat.add_assoc, Nat.add_comm 1 j] using this)
      (by
        have := h2
        simpa [Nat.add_assoc, Nat.add_comm 1 m] using this)
      (by omega)]
    simp [List.range'_succ, List.map_append]

theorem decode_ok_general (buf : buffer_t) (N : Nat)
    (hN : dec8be buf.data 56 = N)
    (hlen : buf.length = 57 + 18 * N + 46)
    (hceil : buf.length ≤ 576)
    (hdl : buf.length ≤ buf.data.length)
    (hty : dec16be buf.data 46 = RR_TYPE_NBSTAT) :
    ∃ rep, nbstat_decode_response (fun _ => true) buf = DecodeResult.ok rep ∧
      rep.hdr.r = (dec16be buf.data 2 >>> 15) &&& 0x1 ∧
      rep.num_names = N := by
  obtain ⟨l, hl⟩ := entryLoop_ok_of_alloc (fun _ => true) buf.data (fun _ => rfl)
    N [] 57 0 (by omega)
  unfold nbstat_decode_response
  rw [hN, if_neg (by omega : ¬ 576 < buf.length),
    if_neg (by omega : ¬ buf.data.length < 48),
    if_neg (by simp [hty]),
    if_neg (by omega : ¬ buf.data.length < 57),
    if_neg (by omega : ¬ 57 + 18 * N + 46 ≠ buf.length), hl]
  dsimp only
  rw [if_neg (by omega : ¬ buf.data.length < 57 + 18 * N + 46),
    if_neg (by omega : ¬ 57 + 18 * N + 46 ≠ buf.length)]
  exact ⟨_, rfl, rfl, rfl⟩

theorem decode_eproto_of_wrong_length (alloc : Nat → Bool) (buf : buffer_t)
    (hdl : 57 ≤ buf.data.length)
    (h : buf.length ≠ 57 + 18 * dec8be buf.data 56 + 46) :
    nbstat_decode_response alloc buf = DecodeResult.err NBSTAT_EPROTO := by
  unfold nbstat_decode_response
  by_cases h576 : 576 < buf.length
  · rw [if_pos h576]
  · rw [if_neg h576, if_neg (by omega : ¬ buf.data.length < 48)]
    by_cases hty : dec16be buf.data 46 = RR_TYPE_NBSTAT
    · rw [if_neg (by simp [hty]), if_neg (by omega : ¬ buf.data.length < 57),
        if_pos (by omega : 57 + 18 * dec8be buf.data 56 + 46 ≠ buf.length)]
    · rw [if_pos hty]

theorem decode_not_oob (alloc : Nat → Bool) (buf : buffer_t)
    (h57 : 57 ≤ buf.data.length) (hdl : buf.length ≤ buf.data.length) :
    (nbstat_decode_response alloc buf).isOob = false := by
  unfold nbstat_decode_response
  by_cases h576 : 576 < buf.length
  · rw [if_pos h576]; rfl
  · rw [if_neg h576, if_neg (by omega : ¬ buf.data.length < 48)]
    by_cases hty : dec16be buf.data 46 = RR_TYPE_NBSTAT
    · rw [if_neg (by simp [hty]), if_neg (by omega : ¬ buf.data.length < 57)]
      by_cases hcross : 57 + 18 * dec8be buf.data 56 + 46 ≠ buf.length
      · rw [if_pos hcross]; rfl
      · rw [if_neg hcross]
        push_neg at hcross
        cases hE : entryLoop alloc buf.data (dec8be buf.data 56) [] 57 0 with
        | ok l p =>
          dsimp only
          have hp : p = 57 + 18 * dec8be buf.data 56 :=
            entryLoop_ok_pos alloc buf.data _ _ _ _ _ _ hE
          rw [if_neg (by omega : ¬ buf.data.length < p + 46)]
          by_cases hfin : p + 46 ≠ buf.length
          · rw [if_pos hfin]; rfl
          · rw [if_neg hfin]; rfl
        | enomem f => rfl
        | oob =>
          have := entryLoop_not_oob alloc buf.data (dec8be buf.data 56) [] 57 0
            (by omega)
          rw [hE] at this
          exact absurd this (by simp [EntryResult.isOob])
    · rw [if_pos hty]; rfl

theorem decode_not_edebug (alloc : Nat → Bool) (buf : buffer_t) :
    (nbstat_decode_response alloc buf).isEdebugErr = false := by
  unfold nbstat_decode_response
  by_cases h576 : 576 < buf.length
  · rw [if_pos h576]; decide
  · rw [if_neg h576]
    by_cases h48 : buf.data.length < 48
    · rw [if_pos h48]; rfl
    · rw [if_neg h48]
      by_cases hty : dec16be buf.data 46 = RR_TYPE_NBSTAT
      · rw [if_neg (by simp [hty])]
        by_cases h57 : buf.data.length < 57
        · rw [if_pos h57]; rfl
        · rw [if_neg h57]
          by_cases hcross : 57 + 18 * dec8be buf.data 56 + 46 ≠ buf.length
          · rw [if_pos hcross]; decide
          · rw [if_neg hcross]
            push_neg at hcross
            cases hE : entryLoop alloc buf.data (dec8be buf.data 56) [] 57 0 with
            | ok l p =>
              dsimp only
              have hp : p = 57 + 18 * dec8be buf.data 56 :=
                entryLoop_ok_pos alloc buf.data _ _ _ _ _ _ hE
              by_cases hoob : buf.data.length < p + 46
              · rw [if_pos hoob]; rfl
              · rw [if_neg hoob, if_neg (by omega : ¬ p + 46 ≠ buf.length)]; rfl
            | enomem f => rfl
            | oob => rfl
      · rw [if_pos hty]; decide

/-- Claim C1 (amended).  For entry counts N in 0..26 — those for which the
prescribed total length 57+18N+46 stays within the 576-byte ceiling — every
buffer of exactly that length with valid field values (resource-record type
0x0021, count byte N) decodes successfully; for N in 27..255 the prescribed
length itself exceeds the ceiling and decode fails with NBSTAT_EPROTO; for a
buffer of any other length decode fails with NBSTAT_EPROTO; and decode never
performs an out-of-bounds access on a buffer whose declared length fits its
backing array. -/
theorem c1_length_consistency :
    (∀ (buf : buffer_t) (N : Nat), N ≤ 26 → dec8be buf.data 56 = N →
        buf.length = 57 + 18 * N + 46 → buf.length ≤ buf.data.length →
        dec16be buf.data 46 = RR_TYPE_NBSTAT →
        DecodeResult.isOk (nbstat_decode_response (fun _ => true) buf) = true) ∧
    (∀ (alloc : Nat → Bool) (d : List Nat) (N : Nat), 27 ≤ N →
        nbstat_decode_response alloc { data := d, length := 57 + 18 * N + 46 } =
          DecodeResult.err NBSTAT_EPROTO) ∧
    (∀ (alloc : Nat → Bool) (buf : buffer_t), 57 ≤ buf.data.length →
        buf.length ≠ 57 + 18 * dec8be buf.data 56 + 46 →
        nbstat_decode_response alloc buf = DecodeResult.err NBSTAT_EPROTO) ∧
    (∀ (alloc : Nat → Bool) (buf : buffer_t), 57 ≤ buf.data.length →
        buf.length ≤ buf.data.length →
        (nbstat_decode_response alloc buf).isOob = false) := by
  refine ⟨?_, ?_, ?_, ?_⟩
  · intro buf N hN26 hN hlen hdl hty
    obtain ⟨rep, hrep, -, -⟩ := decode_ok_general buf N hN hlen (by omega) hdl hty
    rw [hrep]
    rfl
  · intro alloc d N hN
    unfold nbstat_decode_response
    dsimp only
    rw [if_pos (by omega : 576 < 57 + 18 * N + 46)]
  · exact decode_eproto_of_wrong_length
  · exact decode_not_oob

/-- Claim C1, witness: the amended statement applied to concrete datagrams
(a valid empty-table response of length 103; the N = 27 frame of length 589;
a frame whose declared length 104 disagrees with its count byte 0). -/
theorem c1_length_consistency_witness :
    DecodeResult.isOk (nbstat_decode_response (fun _ => true) bufZeroFlags) = true ∧
    nbstat_decode_response (fun _ => true)
        { data := bufN27.data, length := 57 + 18 * 27 + 46 } =
      DecodeResult.err NBSTAT_EPROTO ∧
    nbstat_decode_response (fun _ => true) bufBadLen = DecodeResult.err NBSTAT_EPROTO ∧
    (nbstat_decode_response (fun _ => true) bufZeroFlags).isOob = false :=
  ⟨c1_length_consistency.1 bufZeroFlags 0 (by decide) (by decide) (by decide)
      (by decide) (by decide),
   c1_length_consistency.2.1 (fun _ => true) bufN27.data 27 (by decide),
   c1_length_consistency.2.2.1 (fun _ => true) bufBadLen (by decide) (by decide),
   c1_length_consistency.2.2.2 (fun _ => true) bufZeroFlags (by decide) (by decide)⟩

/-- Claim C1, counterexample to the claim as stated: the buffer of exactly
the prescribed length for N = 27 entries, with valid count byte and
resource-record type 0x0021, does not decode successfully — it is rejected
with NBSTAT_EPROTO at the 576-byte ceiling. -/
theorem c1_counterexample :
    bufN27.length = 57 + 18 * 27 + 46 ∧
    dec8be bufN27.data 56 = 27 ∧
    dec16be bufN27.data 46 = RR_TYPE_NBSTAT ∧
    nbstat_decode_response (fun _ => true) bufN27 = DecodeResult.err NBSTAT_EPROTO :=
  ⟨by decide, by decide, by decide, by decide⟩

/-- Claim C2: decoding a response whose wire flags word is 0x07F0 — all
seven NM-flag bit positions (bits 10 down to 4) set, all other bits clear.
The claim says the decoded aa/tc/rd/ra/unused1/unused2/b must equal those
wire bits (all 1); the code instead assigns the whole flags word to each
one-bit field, which truncates to bit 0, so all seven decode to 0. -/
theorem c2_flag_decode :
    (nbstat_decode_response (fun _ => true) bufNmFlags).header =
      some { name_trn_id := 0, r := 0, opcode := 0, aa := 0, tc := 0, rd := 0, ra := 0,
             unused1 := 0, unused2 := 0, b := 0, rcode := 0, qdcount := 0, ancount := 0,
             nscount := 0, arcount := 0 } ∧
    dec16be bufNmFlags.data 2 = 0x07f0 ∧
    (0x07f0 >>> 10) &&& 0x1 = 1 ∧ (0x07f0 >>> 9) &&& 0x1 = 1 ∧
    (0x07f0 >>> 8) &&& 0x1 = 1 ∧ (0x07f0 >>> 7) &&& 0x1 = 1 ∧
    (0x07f0 >>> 6) &&& 0x1 = 1 ∧ (0x07f0 >>> 5) &&& 0x1 = 1 ∧
    (0x07f0 >>> 4) &&& 0x1 = 1 := by
  decide

/-- Claim C3 (amended): the decoder does not validate the response bit — a
buffer with valid framing decodes successfully even when bit 15 of its flags
word is clear, and the stored response bit is the wire bit taken as given. -/
theorem c3_response_bit_not_validated :
    ∀ (buf : buffer_t) (N : Nat), dec8be buf.data 56 = N →
      buf.length = 57 + 18 * N + 46 → buf.length ≤ 576 → buf.length ≤ buf.data.length →
      dec16be buf.data 46 = RR_TYPE_NBSTAT →
      (dec16be buf.data 2 >>> 15) &&& 0x1 = 0 →
      ∃ rep, nbstat_decode_response (fun _ => true) buf = DecodeResult.ok rep ∧
        rep.hdr.r = 0 := by
  intro buf N hN hlen hceil hdl hty hr
  obtain ⟨rep, hrep, hrval, -⟩ := decode_ok_general buf N hN hlen hceil hdl hty
  exact ⟨rep, hrep, by rw [hrval, hr]⟩

/-- Claim C3, witness: the all-zero-flags response of length 103 decodes
successfully with a stored response bit of 0. -/
theorem c3_response_bit_witness :
    ((nbstat_decode_response (fun _ => true) bufZeroFlags).header).map
      nbstat_packet_header.r = some 0 := by
  obtain ⟨rep, h1, h2⟩ := c3_response_bit_not_validated bufZeroFlags 0 (by decide)
    (by decide) (by decide) (by decide) (by decide) (by decide)
  rw [h1]
  simp [DecodeResult.header, h2]

/-- Claim C3, counterexample to the claim as stated: a buffer whose flags
word has the response bit clear is decoded successfully, not rejected. -/
theorem c3_counterexample :
    (dec16be bufZeroFlags.data 2 >>> 15) &&& 0x1 = 0 ∧
    DecodeResult.isOk (nbstat_decode_response (fun _ => true) bufZeroFlags) = true := by
  decide

/-- Claim C4: a declared length above 576 is rejected with NBSTAT_EPROTO
whatever the backing array holds — even an empty one — so no field of the
buffer contents is read before the rejection. -/
theorem c4_oversize_rejected :
    ∀ (alloc : Nat → Bool) (d : List Nat) (L : Nat), 576 < L →
      nbstat_decode_response alloc { data := d, length := L } =
        DecodeResult.err NBSTAT_EPROTO := by
  intro alloc d L h
  unfold nbstat_decode_response
  dsimp only
  rw [if_pos h]

/-- Claim C4, witness: a 577-byte declared length over an empty backing
array is rejected with NBSTAT_EPROTO. -/
theorem c4_oversize_witness :
    nbstat_decode_response (fun _ => true) { data := [], length := 577 } =
      DecodeResult.err NBSTAT_EPROTO :=
  c4_oversize_rejected (fun _ => true) [] 577 (by decide)

/-- Claim C5: once the size ceiling passes, a resource-record type other
than 0x0021 is rejected with NBSTAT_EPROTO regardless of anything else. -/
theorem c5_type_discriminator :
    ∀ (alloc : Nat → Bool) (buf : buffer_t), buf.length ≤ 576 →
      48 ≤ buf.data.length → dec16be buf.data 46 ≠ RR_TYPE_NBSTAT →
      nbstat_decode_response alloc buf = DecodeResult.err NBSTAT_EPROTO := by
  intro alloc buf hceil hdl hty
  unfold nbstat_decode_response
  rw [if_neg (by omega : ¬ 576 < buf.length),
    if_neg (by omega : ¬ buf.data.length < 48), if_pos hty]

/-- Claim C5, witness: an otherwise well-formed 103-byte response whose
resource-record type is 0x0020 is rejected with NBSTAT_EPROTO. -/
theorem c5_type_witness :
    nbstat_decode_response (fun _ => true) bufBadType = DecodeResult.err NBSTAT_EPROTO :=
  c5_type_discriminator (fun _ => true) bufBadType (by decide) (by decide) (by decide)

/-- Claim C6: when the k-th entry allocation is the first to fail, the entry
loop frees exactly the k entries allocated before it (allocation ids 0..k-1,
the whole chain `node_name_free` walks) and the decoder returns
NBSTAT_ENOMEM; and on every failure path of nbstat_query the out-parameter
result object is never set. -/
theorem c6_alloc_failure_cleanup :
    (∀ (alloc : Nat → Bool) (d : List Nat) (n k : Nat), k < n →
        (∀ j, j < k → alloc j = true) → alloc k = false → 57 + 18 * k ≤ d.length →
        entryLoop alloc d n [] 57 0 = EntryResult.enomem (List.range k)) ∧
    (∀ (alloc : Nat → Bool) (buf : buffer_t) (k : Nat),
        buf.length ≤ 576 → buf.length ≤ buf.data.length →
        dec16be buf.data 46 = RR_TYPE_NBSTAT →
        57 + 18 * dec8be buf.data 56 + 46 = buf.length →
        k < dec8be buf.data 56 →
        (∀ j, j < k → alloc j = true) → alloc k = false →
        nbstat_decode_response alloc buf = DecodeResult.err NBSTAT_ENOMEM) ∧
    (∀ env : QueryEnv, (nbstat_query env).1 ≠ NBSTAT_EOK → (nbstat_query env).2 = none) := by
  refine ⟨?_, ?_, ?_⟩
  · intro alloc d n k hkn h1 h2 hb
    have := entryLoop_enomem alloc d k n [] 57 0 hkn
      (fun j hj => by simpa using h1 j hj) (by simpa using h2) hb
    simpa [List.range_eq_range'] using this
  · intro alloc buf k hceil hdl hty hcross hkN h1 h2
    have hE := entryLoop_enomem alloc buf.data k (dec8be buf.data 56) [] 57 0 hkN
      (fun j hj => by simpa using h1 j hj) (by simpa using h2) (by omega)
    unfold nbstat_decode_response
    rw [if_neg (by omega : ¬ 576 < buf.length),
      if_neg (by omega : ¬ buf.data.length < 48),
      if_neg (by simp [hty]),
      if_neg (by omega : ¬ buf.data.length < 57),
      if_neg (by omega : ¬ 57 + 18 * dec8be buf.data 56 + 46 ≠ buf.length), hE]
  · intro env h
    unfold nbstat_query at h ⊢
    by_cases h1 : env.winsock_ok = false
    · rw [if_pos h1]
    · rw [if_neg h1] at h ⊢
      by_cases h2 : env.socket_ok = false
      · rw [if_pos h2]
      · rw [if_neg h2] at h ⊢
        by_cases h3 : env.send_ok = false
        · rw [if_pos h3]
        · rw [if_neg h3] at h ⊢
          by_cases h4 : env.select_result < 0
          · rw [if_pos h4]
          · rw [if_neg h4] at h ⊢
            by_cases h5 : env.select_result = 0
            · rw [if_pos h5]
            · rw [if_neg h5] at h ⊢
              cases hD : nbstat_decode_response env.alloc env.recv_buffer with
              | ok rep =>
                rw [hD] at h
                by_cases h6 : env.recv_ok = false
                · rw [if_pos h6]
                · rw [if_neg h6] at h ⊢
                  dsimp only at h ⊢
                  by_cases h7 : env.nbstat_alloc_ok = false
                  · rw [if_pos h7]
                  · rw [if_neg h7] at h
                    exact absurd rfl h
              | err c =>
                by_cases h6 : env.recv_ok = false
                · rw [if_pos h6]
                · rw [if_neg h6]
              | oob =>
                by_cases h6 : env.recv_ok = false
                · rw [if_pos h6]
                · rw [if_neg h6]

/-- Claim C6, witness: with the N = 2 frame and an allocation oracle whose
first failure is the second allocation, the loop frees exactly entry 0 and
the decoder returns NBSTAT_ENOMEM; a query whose winsock initialisation
fails returns no result object. -/
theorem c6_alloc_failure_witness :
    entryLoop (fun i => i == 0) bufN2.data 2 [] 57 0 = EntryResult.enomem (List.range 1) ∧
    nbstat_decode_response (fun i => i == 0) bufN2 = DecodeResult.err NBSTAT_ENOMEM ∧
    (nbstat_query envWsaFail).2 = none :=
  ⟨c6_alloc_failure_cleanup.1 (fun i => i == 0) bufN2.data 2 1 (by decide)
      (fun j hj => by interval_cases j; decide) (by decide) (by decide),
   c6_alloc_failure_cleanup.2.1 (fun i => i == 0) bufN2 1 (by decide) (by decide)
      (by decide) (by decide) (by decide) (fun j hj => by interval_cases j; decide)
      (by decide),
   c6_alloc_failure_cleanup.2.2 envWsaFail (by decide)⟩

/-- Claim C7: with non-null buffer and query pointers and the 34-byte
question-name array, nbstat_encode_request returns success, writes the
50-byte request (12-byte header, then the question section, no padding)
over the front of the buffer, leaves the rest of the backing array intact,
and sets the buffer length to 50; and it returns NBSTAT_EINVAL exactly when
one of its pointers is null. -/
theorem c7_encode_request :
    (∀ (buf : buffer_t) (q : nbstat_query_s), (q.question.q_name).length = 34 →
        (nbstat_encode_request (some buf) (some q)).1 = NBSTAT_EOK ∧
        (nbstat_encode_request (some buf) (some q)).2 =
          some { data := nbstat_request_bytes q ++ buf.data.drop 50, length := 50 } ∧
        (nbstat_request_bytes q).length = 50) ∧
    (∀ (b : Option buffer_t) (q : Option nbstat_query_s),
        ((nbstat_encode_request b q).1 == NBSTAT_EINVAL) = (b.isNone || q.isNone)) := by
  constructor
  · intro buf q hq
    have hlen : (nbstat_request_bytes q).length = 50 := by
      simp [nbstat_request_bytes, enc16be, hq]
    refine ⟨rfl, ?_, hlen⟩
    show some _ = _
    rw [hlen]
  · intro b q
    cases b <;> cases q <;> rfl

/-- Claim C7, witness: the encode applied to a concrete buffer and query,
and the null-pointer case with a missing buffer. -/
theorem c7_encode_request_witness :
    ((nbstat_encode_request (some encBuf) (some encQuery)).1 = NBSTAT_EOK ∧
     (nbstat_encode_request (some encBuf) (some encQuery)).2 =
       some { data := nbstat_request_bytes encQuery ++ encBuf.data.drop 50, length := 50 } ∧
     (nbstat_request_bytes encQuery).length = 50) ∧
    ((nbstat_encode_request none (some encQuery)).1 == NBSTAT_EINVAL) =
      ((none : Option buffer_t).isNone || (some encQuery).isNone) :=
  ⟨c7_encode_request.1 encBuf encQuery (by decide),
   c7_encode_request.2 none (some encQuery)⟩

/-- Claim C8: the timeout normalization before the wait maps 0, -1 and
50000 to the 3000 ms default, keeps 2000 unchanged, and always yields a
value in (0, 10000]. -/
theorem c8_timeout_normalization :
    normalize_timeout 0 = 3000 ∧ normalize_timeout (-1) = 3000 ∧
    normalize_timeout 50000 = 3000 ∧ normalize_timeout 2000 = 2000 ∧
    ∀ t : Int, 0 < normalize_timeout t ∧ normalize_timeout t ≤ 10000 := by
  refine ⟨by decide, by decide, by decide, by decide, ?_⟩
  intro t
  unfold normalize_timeout
  by_cases h : 10000 < t ∨ t ≤ 0
  · rw [if_pos h]
    omega
  · rw [if_neg h]
    omega

/-- Claim C9: after the upfront length cross-check has passed, the cursor
after the entry loop is exactly its start plus 18 bytes per entry, so the
final consistency check always holds and the decoder never returns the
internal debug error NBSTAT_EDEBUG. -/
theorem c9_no_edebug :
    (∀ (alloc : Nat → Bool) (d : List Nat) (r : Nat)
        (node : List (Nat × nbstat_node_name)) (pos i : Nat)
        (l : List nbstat_node_name) (p : Nat),
        entryLoop alloc d r node pos i = EntryResult.ok l p → p = pos + 18 * r) ∧
    ∀ (alloc : Nat → Bool) (buf : buffer_t),
      (nbstat_decode_response alloc buf).isEdebugErr = false :=
  ⟨entryLoop_ok_pos, decode_not_edebug⟩

/-- Claim C9, witness: the cursor equation applied to the empty entry loop,
and the no-debug-error statement applied to a concrete mismatched buffer. -/
theorem c9_no_edebug_witness :
    (57 : Nat) = 57 + 18 * 0 ∧
    (nbstat_decode_response (fun _ => true) bufBadLen).isEdebugErr = false :=
  ⟨c9_no_edebug.1 (fun _ => true) [] 0 [] 57 0 [] 57 rfl,
   c9_no_edebug.2 (fun _ => true) bufBadLen⟩

/-- Claim C10: the error table has no entry for NBSTAT_EPROTO, so
nbstat_error falls back to "Unknown error" for it, while every other
defined code maps to its dedicated description string. -/
theorem c10_error_strings :
    List.find? (fun e => e.fst == NBSTAT_EPROTO) error_list = none ∧
    nbstat_error NBSTAT_EPROTO = "Unknown error" ∧
    nbstat_error NBSTAT_EOK = "operation completed successfully" ∧
    nbstat_error NBSTAT_ENOMEM = "memory allocation failure" ∧
    nbstat_error NBSTAT_EINVAL = "an invalid argument was passed to a library function" ∧
    nbstat_error NBSTAT_EWSAFAIL = "could not initialize the sockets layer" ∧
    nbstat_error NBSTAT_ESOCKET = "the system could not allocate a socket descriptor" ∧
    nbstat_error NBSTAT_ETRFLAG = "truncation flag was set in response" ∧
    nbstat_error NBSTAT_ETIMEOUT = "request expired" ∧
    nbstat_error NBSTAT_EDEBUG = "debugging error" :=
  ⟨rfl, rfl, rfl, rfl, rfl, rfl, rfl, rfl, rfl, rfl⟩
